import Mathlib

/-!
Verification of the expression-node layer of the Emojicode compiler,
`src/Compiler/AST/ASTExpr.hpp`, as a shallow embedding in Lean.

Each C++ class of the header becomes a Lean structure or a constructor of the
expression-tree inductive; the mutable member fields of a node become fields of
an explicit state record, and member functions become pure state-transforming
functions. Member functions that are only declared in the header, with their
bodies in the absent `ASTExpr.cpp`, are modelled from the specification; each
such definition carries a doc comment beginning "Modelled from the spec".
-/

namespace EmojicodeCompiler

/-- Source position carried by every AST node. It is declared in `ASTNode.hpp`,
which is not part of the fragment; only its presence and its equality matter to
the expression layer, so it is modelled as a plain line/character record. -/
structure SourcePosition where
  line : Nat
  character : Nat
  deriving DecidableEq

/-- Model of the semantic type `Type` from `Types/Type.hpp`, which is not part
of the fragment. The expression layer needs the `Type::noReturn()` sentinel
("never produces a value", stored in every fresh node), an unmanaged fixed-size
integer type (the result type of a Size-Of node), and arbitrary further types:
reference types (`klass`) and callable types, here identified by arity and
return type, stand in for those. -/
inductive Ty where
  | noReturn : Ty
  | integer : Ty
  | klass : Nat → Ty
  | callable : Nat → Ty → Ty
  deriving DecidableEq

/-- Modelled from the spec: whether a value of this type is reference-counted
("managed"). The real predicate lives on `Type` outside the fragment. The
temporary-object protocol registers a temporary only for managed types, and
"Size-Of never produces a managed value"; class instances and captured
callables are the managed values of the language. -/
def Ty.isManaged : Ty → Bool
  | .klass _ => true
  | .callable _ _ => true
  | _ => false

/-- Calling mood from `Functions/Mood.hpp`, which is not part of the fragment.
`ASTArguments` defaults the mood to `Mood::Imperative` (src line 194). -/
inductive Mood where
  | imperative
  | interrogative
  | assignment
  deriving DecidableEq

/-- Token type tag stored by `ASTTypeAsValue`; opaque to this layer. -/
abbrev TokenType := Nat

/-- Syntactic type annotation node (`ASTType.hpp`, not part of the fragment);
opaque to this layer. -/
structure ASTType where
  id : Nat
  deriving DecidableEq

/-- Handle standing in for an `llvm::Value` pointer; a nullable `llvm::Value*`
member becomes an `Option Value` field with `none` for `nullptr`. -/
abbrev Value := Nat

/-- Stand-in for `std::u32string` identifiers. -/
abbrev U32String := String

/-- Stand-in for `Scoping/Variable.hpp`'s `VariableID`. -/
abbrev VariableID := Nat

/-- Memory-flow category (`MFFlowCategory.hpp`, not part of the fragment): it
distinguishes at least a value consumed/bound by the parent from one merely
produced and then discarded. -/
inductive MFFlowCategory where
  | consumed
  | discarded
  deriving DecidableEq

/-- The per-node state introduced by the `ASTExpr` base class: the node position
(from `ASTNode`), the private field `isTemporary_` defaulting to `true`
(src line 81) and the private field `expressionType_` defaulting to
`Type::noReturn()` (src line 82). -/
structure ExprState where
  position : SourcePosition
  isTemporary : Bool := true
  expressionType : Ty := Ty.noReturn
  deriving DecidableEq

/-- The state produced by the base-class constructor `ASTExpr(p)` (src line 36):
the defaults of the private members, with the position stored by `ASTNode`. -/
def mkExprState (p : SourcePosition) : ExprState :=
  { position := p }

/-- The extra per-node state of `ASTCall` (src lines 105-107): `handledError_`
defaults to `false` and `errorDest_` to `nullptr`. -/
structure CallState where
  handledError : Bool := false
  errorDest : Option Value := none
  deriving DecidableEq

/-- The expression-node tree. The constructors are the concrete node classes of
`ASTExpr.hpp`; `unaryMF` stands for an arbitrary node class derived from the
abstract `ASTUnaryMFForwarding` (src lines 136-143), wrapping exactly one child
expression (`expr_`, src line 123). Every constructor carries the `ASTExpr`
base state; the call nodes (`ASTCallableCall`, `ASTSuper`) additionally carry
the `ASTCall` state. The `ASTArguments` payload of a call node is split into
its list of argument expressions here and scalar metadata, which the call-node
claims do not consult, modelled by the standalone `ASTArguments` structure
below. -/
inductive ASTExpr where
  | typeAsValue (s : ExprState) (type : ASTType) (tokenType : TokenType)
  | sizeOf (s : ExprState) (type : ASTType)
  | unaryMF (s : ExprState) (expr : ASTExpr)
  | callableCall (s : ExprState) (c : CallState) (callable : ASTExpr) (args : List ASTExpr)
  | superCall (s : ExprState) (c : CallState) (name : U32String) (args : List ASTExpr)
      (function : Option Nat) (calleeType : Ty) (isInit : Bool) (manageErrorProneness : Bool)
  | conditionalAssignment (s : ExprState) (varName : U32String) (expr : ASTExpr) (varId : VariableID)

/-- Constructor `ASTTypeAsValue(type, tokenType, p)` (src lines 147-148). -/
def mkASTTypeAsValue (type : ASTType) (tokenType : TokenType) (p : SourcePosition) : ASTExpr :=
  .typeAsValue (mkExprState p) type tokenType

/-- Constructor `ASTSizeOf(type, p)` (src line 162). -/
def mkASTSizeOf (type : ASTType) (p : SourcePosition) : ASTExpr :=
  .sizeOf (mkExprState p) type

/-- Constructor of an `ASTUnaryMFForwarding` subclass, via the inherited
`ASTUnary(value, p)` (src line 120): stores the child and forwards the position
to `ASTExpr(p)`. -/
def mkASTUnaryMF (value : ASTExpr) (p : SourcePosition) : ASTExpr :=
  .unaryMF (mkExprState p) value

/-- Constructor `ASTCallableCall(value, args, p)` (src lines 202-203), through
`ASTCall(p)` (src line 89). -/
def mkASTCallableCall (value : ASTExpr) (args : List ASTExpr) (p : SourcePosition) : ASTExpr :=
  .callableCall (mkExprState p) {} value args

/-- Constructor `ASTSuper(name, args, p)` (src lines 220-221): `function_`
defaults to `nullptr`, `calleeType_` to `Type::noReturn()`, `init_` and
`manageErrorProneness_` to `false` (src lines 234-238). -/
def mkASTSuper (name : U32String) (args : List ASTExpr) (p : SourcePosition) : ASTExpr :=
  .superCall (mkExprState p) {} name args none Ty.noReturn false false

/-- Constructor `ASTConditionalAssignment(varName, expr, p)` (src lines
245-246); `varId_` is default-constructed. -/
def mkASTConditionalAssignment (varName : U32String) (expr : ASTExpr) (p : SourcePosition) : ASTExpr :=
  .conditionalAssignment (mkExprState p) varName expr 0

/-- The `ASTExpr` base state of a node, whichever concrete class it has. -/
def ASTExpr.exprState : ASTExpr → ExprState
  | .typeAsValue s _ _ => s
  | .sizeOf s _ => s
  | .unaryMF s _ => s
  | .callableCall s _ _ _ => s
  | .superCall s _ _ _ _ _ _ _ => s
  | .conditionalAssignment s _ _ _ => s

/-- `ASTNode::position()` for an expression node. -/
def ASTExpr.position (e : ASTExpr) : SourcePosition :=
  e.exprState.position

/-- `ASTExpr::isTemporary()` (src line 78). -/
def ASTExpr.isTemporary (e : ASTExpr) : Bool :=
  e.exprState.isTemporary

/-- `ASTExpr::expressionType()` (src line 39). -/
def ASTExpr.expressionType (e : ASTExpr) : Ty :=
  e.exprState.expressionType

/-- Replace the base state of the node itself (the C++ object's own `ASTExpr`
subobject), leaving children untouched; used to express the base-class setters. -/
def ASTExpr.modifyState (f : ExprState → ExprState) : ASTExpr → ASTExpr
  | .typeAsValue s t tk => .typeAsValue (f s) t tk
  | .sizeOf s t => .sizeOf (f s) t
  | .unaryMF s child => .unaryMF (f s) child
  | .callableCall s c callable args => .callableCall (f s) c callable args
  | .superCall s c n args fn ct ini mep => .superCall (f s) c n args fn ct ini mep
  | .conditionalAssignment s v child vid => .conditionalAssignment (f s) v child vid

/-- `ASTExpr::setExpressionType(type)` (src line 40). -/
def ASTExpr.setExpressionType (e : ASTExpr) (t : Ty) : ASTExpr :=
  e.modifyState fun s => { s with expressionType := t }

/-- `ASTExpr::unsetIsTemporary()` (src line 50): sets `isTemporary_ = false`
and then runs the virtual hook `unsetIsTemporaryPost()`, which does nothing in
the base class (src line 74) and which `ASTUnaryMFForwarding` overrides, final,
to call `expr_->unsetIsTemporary()` (src line 142). -/
def ASTExpr.unsetIsTemporary : ASTExpr → ASTExpr
  | .unaryMF s child => .unaryMF { s with isTemporary := false } child.unsetIsTemporary
  | e => e.modifyState fun s => { s with isTemporary := false }

/-- The wrapped child of an `ASTUnaryMFForwarding` node (`expr_`, src line
123); `none` for node kinds that do not wrap exactly one child this way. -/
def ASTExpr.unaryChild : ASTExpr → Option ASTExpr
  | .unaryMF _ child => some child
  | _ => none

/-- `errorType()` of a call node. `ASTCallableCall::errorType` is given inline
in the header (src line 210): it returns the callable child's
`expressionType()`. For node kinds that are not call nodes, and for `ASTSuper`,
whose override lives in the absent `ASTExpr.cpp`, no value is modelled. -/
def ASTExpr.errorType : ASTExpr → Option Ty
  | .callableCall _ _ callable _ => some callable.expressionType
  | _ => none

/-- `isErrorProne()` of a call node. `ASTCallableCall::isErrorProne` is given
inline in the header (src line 211): it returns `false` unconditionally. For
node kinds that are not call nodes, and for `ASTSuper`, whose override lives in
the absent `ASTExpr.cpp`, no value is modelled. -/
def ASTExpr.isErrorProne : ASTExpr → Option Bool
  | .callableCall _ _ _ _ => some false
  | _ => none

/-- Modelled from the spec: whether the node's `generate` implementation passes
its own result to `handleResult`. The `generate` bodies live in the absent
`.cpp` files. The header requires that `ASTUnaryMFForwarding` subclasses "must
not pass their result to ::handleResult" (src lines 132-134); Size-Of "never
produces a managed value" and emits a plain size constant, so its `generate`
has nothing to register; the call nodes and the remaining kinds follow the base
contract of routing every potentially managed result through `handleResult`. -/
def ASTExpr.passesOwnResultToHandleResult : ASTExpr → Bool
  | .unaryMF _ _ => false
  | .sizeOf _ _ => false
  | _ => true

/-- Modelled from the spec: `ASTExpr::producesTemporaryObject()` (declared src
line 59, body in the absent `ASTExpr.cpp`) reports whether the node's value was
registered for automatic release; per the temporary-object protocol,
`handleResult` registers the value exactly when the node is still temporary and
its result type is a managed type. -/
def ASTExpr.producesTemporaryObject (e : ASTExpr) : Bool :=
  e.isTemporary && e.expressionType.isManaged

/-- Modelled from the spec: `ASTSizeOf::analyse` (declared src line 163, body
in the absent `ASTExpr.cpp`) resolves the type operand and produces "a
compile-time-computed size constant", so the node's result type is the
language's integer type, a fixed-size unmanaged value type; the model records
it on the node as analysis does. -/
def ASTSizeOf.analyse (e : ASTExpr) : ASTExpr :=
  e.setExpressionType Ty.integer

/-- The memory-flow pass entry point, per node kind, as far as node-local state
goes. The bodies given inline in the header are transcribed exactly:
`ASTTypeAsValue::analyseMemoryFlow` (src line 153) and
`ASTSizeOf::analyseMemoryFlow` (src line 167) have empty bodies, so those nodes
are returned unchanged. `ASTUnaryMFForwarding::analyseMemoryFlow` (declared src
line 139, body absent) is modelled from the spec and the header comment (src
lines 128-130): it "simply analyses ::expr_ with the same category". The
overrides of the remaining kinds live in the absent `ASTExpr.cpp` and drive the
analyser, which mutates node state only through the public operations modelled
separately; they are modelled as leaving the node itself unchanged. -/
def ASTExpr.analyseMemoryFlow (cat : MFFlowCategory) : ASTExpr → ASTExpr
  | .typeAsValue s t tk => .typeAsValue s t tk
  | .sizeOf s t => .sizeOf s t
  | .unaryMF s child => .unaryMF s (child.analyseMemoryFlow cat)
  | e => e

/-- The public mutating operations that the `ASTExpr` base class exposes on a
node: `setExpressionType` (src line 40), `analyseMemoryFlow` (src line 46),
`unsetIsTemporary` (src line 50), and `mutateReference` (src line 54, whose
base implementation does nothing). `isTemporary_` is private (src line 81), so
even subclass code can reach it only through these operations. -/
inductive ExprOp where
  | setExpressionType (t : Ty)
  | analyseMemoryFlow (cat : MFFlowCategory)
  | unsetIsTemporary
  | mutateReference

/-- Apply one public operation to a node. -/
def applyExprOp : ExprOp → ASTExpr → ASTExpr
  | .setExpressionType t, e => e.setExpressionType t
  | .analyseMemoryFlow cat, e => e.analyseMemoryFlow cat
  | .unsetIsTemporary, e => e.unsetIsTemporary
  | .mutateReference, e => e

/-- Run a sequence of public operations on a node, first operation first. -/
def runExprOps (ops : List ExprOp) (e : ASTExpr) : ASTExpr :=
  ops.foldl (fun acc op => applyExprOp op acc) e

/-- Whether an operation is the `unsetIsTemporary` call. -/
def ExprOp.isUnset : ExprOp → Bool
  | .unsetIsTemporary => true
  | _ => false

/-- `ASTArguments` (src lines 173-198): calling mood (default
`Mood::Imperative`), the ordered generic-argument syntax nodes, the ordered
positional argument expressions, and the resolved generic-argument types
(`genericArgumentsTypes_`), initially empty. -/
structure ASTArguments where
  position : SourcePosition
  mood : Mood := Mood.imperative
  genericArguments : List ASTType := []
  arguments : List ASTExpr := []
  genericArgumentsTypes : List Ty := []

/-- Constructor `ASTArguments(p)` (src line 175). -/
def mkASTArguments (p : SourcePosition) : ASTArguments :=
  { position := p }

/-- Constructor `ASTArguments(p, args)` (src lines 176-177). -/
def mkASTArgumentsWithArgs (p : SourcePosition) (args : List ASTExpr) : ASTArguments :=
  { position := p, arguments := args }

/-- Constructor `ASTArguments(p, mood)` (src line 179). -/
def mkASTArgumentsWithMood (p : SourcePosition) (mood : Mood) : ASTArguments :=
  { position := p, mood := mood }

/-- `ASTArguments::addGenericArgument(type)` (src line 180): `emplace_back`. -/
def ASTArguments.addGenericArgument (a : ASTArguments) (type : ASTType) : ASTArguments :=
  { a with genericArguments := a.genericArguments ++ [type] }

/-- `ASTArguments::addArguments(arg)` (src line 183): `emplace_back` of the
argument expression at the end of `arguments_`. -/
def ASTArguments.addArguments (a : ASTArguments) (arg : ASTExpr) : ASTArguments :=
  { a with arguments := a.arguments ++ [arg] }

/-- `ASTArguments::args()` (src lines 184-185). -/
def ASTArguments.args (a : ASTArguments) : List ASTExpr :=
  a.arguments

/-- `ASTArguments::setMood(mood)` (src line 188). -/
def ASTArguments.setMood (a : ASTArguments) (mood : Mood) : ASTArguments :=
  { a with mood := mood }

/-- `ASTArguments::genericArgumentTypes()` (src line 190). -/
def ASTArguments.genericArgumentTypes (a : ASTArguments) : List Ty :=
  a.genericArgumentsTypes

/-- `ASTArguments::setGenericArgumentTypes(types)` (src line 191): moves the
given vector into `genericArgumentsTypes_`. The setter itself performs no
length check; the callers, outside the fragment, pass the types resolved for
exactly the generic-argument syntax nodes. -/
def ASTArguments.setGenericArgumentTypes (a : ASTArguments) (types : List Ty) : ASTArguments :=
  { a with genericArgumentsTypes := types }

/-- `insertNode<T>(node, args...)` (src lines 110-115): reads the position of
the node currently in the slot, constructs the wrapper `T` from the old node
and that position (modelled at the `ASTUnary` family, src line 120, whose
constructor stores the child and forwards the position to `ASTExpr`), stores
the wrapper in the slot, and returns it. The pair is (new slot content,
returned node); in the C++ both are the same shared pointer. -/
def insertNode (node : ASTExpr) : ASTExpr × ASTExpr :=
  let pos := node.position
  let newNode := mkASTUnaryMF node pos
  (newNode, newNode)

/-- The state of an `ASTCall` node as far as the error-handling obligation is
concerned (src lines 87-108): the base state plus `handledError_` (default
`false`) and `errorDest_` (default `nullptr`). `isErrorProne()` is pure virtual
(src line 94); the subclass override is passed as a Boolean parameter where
needed. -/
structure ASTCallNode where
  s : ExprState
  handledError : Bool := false
  errorDest : Option Value := none
  deriving DecidableEq

/-- Constructor `ASTCall(p)` (src line 89): base-class defaults. -/
def mkASTCallNode (p : SourcePosition) : ASTCallNode :=
  { s := mkExprState p }

/-- `ASTCall::setHandledError()` (src line 97). -/
def ASTCallNode.setHandledError (c : ASTCallNode) : ASTCallNode :=
  { c with handledError := true }

/-- `ASTCall::setErrorPointer(errorDest)` (src line 99). -/
def ASTCallNode.setErrorPointer (c : ASTCallNode) (dest : Value) : ASTCallNode :=
  { c with errorDest := some dest }

/-- `ASTCall::errorPointer()` (src line 103). -/
def ASTCallNode.errorPointer (c : ASTCallNode) : Option Value :=
  c.errorDest

/-- The compile-time faults this layer can raise. -/
inductive CompilerFault where
  | unhandledError (p : SourcePosition)
  deriving DecidableEq

/-- Modelled from the spec: `ASTCall::ensureErrorIsHandled(analyser)` (declared
src line 102, body in the absent `ASTExpr.cpp`) is invoked near the end of the
node's own `analyse` — hence before code generation starts — and fails with an
unhandled-error fault if `isErrorProne()` is true and neither
`setHandledError` was called nor an error destination was set. -/
def ASTCallNode.ensureErrorIsHandled (errorProne : Bool) (c : ASTCallNode) :
    Except CompilerFault Unit :=
  if errorProne && !c.handledError && c.errorDest.isNone then
    Except.error (CompilerFault.unhandledError c.s.position)
  else
    Except.ok ()

/-- The public operations through which an enclosing context discharges the
error obligation of an `ASTCall` node. -/
inductive CallOp where
  | setHandledError
  | setErrorPointer (dest : Value)

/-- Apply one obligation-discharging operation. -/
def applyCallOp : CallOp → ASTCallNode → ASTCallNode
  | .setHandledError, c => c.setHandledError
  | .setErrorPointer d, c => c.setErrorPointer d

/-- Run a sequence of obligation-discharging operations, first one first. -/
def runCallOps (ops : List CallOp) (c : ASTCallNode) : ASTCallNode :=
  ops.foldl (fun acc op => applyCallOp op acc) c

/-- Whether an operation is the `setHandledError` call. -/
def CallOp.isSetHandledError : CallOp → Bool
  | .setHandledError => true
  | _ => false

/-- Whether an operation is a `setErrorPointer` call. -/
def CallOp.isSetErrorPointer : CallOp → Bool
  | .setErrorPointer _ => true
  | _ => false

/-- Whether the analysis step represented by an `Except` outcome raised a
fault. -/
def raisesFault : Except CompilerFault Unit → Bool
  | .error _ => true
  | .ok _ => false

/-- Replacing the base state of a node replaces exactly its `exprState`. -/
lemma ASTExpr.exprState_modifyState (f : ExprState → ExprState) (e : ASTExpr) :
    (e.modifyState f).exprState = f e.exprState := by
  cases e <;> rfl

/-- After `unsetIsTemporary`, the node's own `isTemporary` flag is `false`. -/
lemma ASTExpr.isTemporary_unsetIsTemporary (e : ASTExpr) :
    e.unsetIsTemporary.isTemporary = false := by
  cases e <;> rfl

/-- `setExpressionType` leaves the `isTemporary` flag unchanged. -/
lemma ASTExpr.isTemporary_setExpressionType (e : ASTExpr) (t : Ty) :
    (e.setExpressionType t).isTemporary = e.isTemporary := by
  cases e <;> rfl

/-- The memory-flow pass leaves the node's own `isTemporary` flag unchanged. -/
lemma ASTExpr.isTemporary_analyseMemoryFlow (cat : MFFlowCategory) (e : ASTExpr) :
    (e.analyseMemoryFlow cat).isTemporary = e.isTemporary := by
  cases e <;> rfl

/-- A wrapper node is never equal to the node it wraps. -/
lemma ASTExpr.unaryMF_ne (s : ExprState) (e : ASTExpr) : ASTExpr.unaryMF s e ≠ e := by
  intro h
  have hs : SizeOf.sizeOf (ASTExpr.unaryMF s e) = SizeOf.sizeOf e := by rw [h]
  simp [ASTExpr.unaryMF.sizeOf_spec] at hs

/-- Folding `addArguments` over a list appends the list, in order, to the end
of the stored arguments. -/
lemma ASTArguments.foldl_addArguments (newArgs : List ASTExpr) (a : ASTArguments) :
    (newArgs.foldl ASTArguments.addArguments a).args = a.args ++ newArgs := by
  induction newArgs generalizing a with
  | nil => simp [ASTArguments.args]
  | cons x xs ih =>
      rw [List.foldl_cons, ih]
      simp [ASTArguments.addArguments, ASTArguments.args]

/-- After a sequence of call-node operations, the `handledError_` flag is set
iff it was already set or the sequence contains a `setHandledError` call. -/
lemma handledError_runCallOps (ops : List CallOp) (c : ASTCallNode) :
    (runCallOps ops c).handledError = (c.handledError || ops.any CallOp.isSetHandledError) := by
  induction ops generalizing c with
  | nil => simp [runCallOps]
  | cons op ops ih =>
      have hstep : runCallOps (op :: ops) c = runCallOps ops (applyCallOp op c) := rfl
      rw [hstep, ih]
      cases op <;>
        simp [applyCallOp, ASTCallNode.setHandledError, ASTCallNode.setErrorPointer,
          CallOp.isSetHandledError, Bool.or_assoc]

/-- After a sequence of call-node operations, `errorDest_` is still null iff it
was null before and the sequence contains no `setErrorPointer` call. -/
lemma errorDest_isNone_runCallOps (ops : List CallOp) (c : ASTCallNode) :
    (runCallOps ops c).errorDest.isNone
      = (c.errorDest.isNone && !(ops.any CallOp.isSetErrorPointer)) := by
  induction ops generalizing c with
  | nil => simp [runCallOps]
  | cons op ops ih =>
      have hstep : runCallOps (op :: ops) c = runCallOps ops (applyCallOp op c) := rfl
      rw [hstep, ih]
      cases op <;>
        simp [applyCallOp, ASTCallNode.setHandledError, ASTCallNode.setErrorPointer,
          CallOp.isSetErrorPointer, Bool.and_assoc]

/-- C1: for a call node whose `isErrorProne()` is true, starting from a freshly
constructed node, the check run near the end of `analyse` — before code
generation starts — raises the unhandled-error fault exactly when the sequence
of operations performed on the node contains neither a `setHandledError` call
nor a `setErrorPointer` call; if either is present, or the node is not
error-prone, no fault is raised. -/
theorem ensureErrorIsHandled_fault_characterisation (p : SourcePosition) (errorProne : Bool)
    (ops : List CallOp) :
    raisesFault ((runCallOps ops (mkASTCallNode p)).ensureErrorIsHandled errorProne)
      = (errorProne && !(ops.any CallOp.isSetHandledError) && !(ops.any CallOp.isSetErrorPointer)) := by
  have h1 : (runCallOps ops (mkASTCallNode p)).handledError = ops.any CallOp.isSetHandledError := by
    rw [handledError_runCallOps]
    simp [mkASTCallNode]
  have h2 : (runCallOps ops (mkASTCallNode p)).errorDest.isNone
      = !(ops.any CallOp.isSetErrorPointer) := by
    rw [errorDest_isNone_runCallOps]
    simp [mkASTCallNode]
  unfold ASTCallNode.ensureErrorIsHandled
  rw [h1, h2]
  cases errorProne <;> cases hA : ops.any CallOp.isSetHandledError <;>
    cases hB : ops.any CallOp.isSetErrorPointer <;> simp [hA, hB, raisesFault]

/-- C2: every freshly constructed expression node — whichever concrete node
class it has, constructed through the base `ASTExpr(p)` constructor — has the
`Type::noReturn()` sentinel as its `expressionType()` and `isTemporary()`
true. -/
theorem freshly_constructed_node_defaults (p : SourcePosition) (ty : ASTType) (tk : TokenType)
    (child callable : ASTExpr) (args : List ASTExpr) (name v : U32String) :
    ((mkASTTypeAsValue ty tk p).expressionType = Ty.noReturn
        ∧ (mkASTTypeAsValue ty tk p).isTemporary = true)
      ∧ ((mkASTSizeOf ty p).expressionType = Ty.noReturn
        ∧ (mkASTSizeOf ty p).isTemporary = true)
      ∧ ((mkASTUnaryMF child p).expressionType = Ty.noReturn
        ∧ (mkASTUnaryMF child p).isTemporary = true)
      ∧ ((mkASTCallableCall callable args p).expressionType = Ty.noReturn
        ∧ (mkASTCallableCall callable args p).isTemporary = true)
      ∧ ((mkASTSuper name args p).expressionType = Ty.noReturn
        ∧ (mkASTSuper name args p).isTemporary = true)
      ∧ ((mkASTConditionalAssignment v child p).expressionType = Ty.noReturn
        ∧ (mkASTConditionalAssignment v child p).isTemporary = true) :=
  ⟨⟨rfl, rfl⟩, ⟨rfl, rfl⟩, ⟨rfl, rfl⟩, ⟨rfl, rfl⟩, ⟨rfl, rfl⟩, ⟨rfl, rfl⟩⟩

/-- C3: across any sequence of the node's public operations, the node's
`isTemporary` flag is exactly its old value and-ed with "no `unsetIsTemporary`
occurred": so `unsetIsTemporary` is the only operation that changes the flag,
it only sets it to `false`, and once `false` the flag never returns to
`true`. -/
theorem isTemporary_monotone (ops : List ExprOp) (e : ASTExpr) :
    (runExprOps ops e).isTemporary = (e.isTemporary && !(ops.any ExprOp.isUnset)) := by
  induction ops generalizing e with
  | nil => simp [runExprOps]
  | cons op ops ih =>
      have hstep : runExprOps (op :: ops) e = runExprOps ops (applyExprOp op e) := rfl
      rw [hstep, ih]
      cases op with
      | setExpressionType t =>
          simp [applyExprOp, ASTExpr.isTemporary_setExpressionType, ExprOp.isUnset]
      | analyseMemoryFlow cat =>
          simp [applyExprOp, ASTExpr.isTemporary_analyseMemoryFlow, ExprOp.isUnset]
      | unsetIsTemporary =>
          simp [applyExprOp, ASTExpr.isTemporary_unsetIsTemporary, ExprOp.isUnset]
      | mutateReference =>
          simp [applyExprOp, ExprOp.isUnset]

/-- C4: on a Unary-Forwarding node, `unsetIsTemporary` leaves the wrapped child
with `isTemporary` false (the hook forwards the call to the child), and such a
node never passes its own result to `handleResult`, so it never registers a
temporary during generation. -/
theorem unaryMF_unset_forwards_to_child (s : ExprState) (child : ASTExpr) :
    ((ASTExpr.unaryMF s child).unsetIsTemporary.unaryChild.map ASTExpr.isTemporary = some false)
      ∧ (ASTExpr.unaryMF s child).passesOwnResultToHandleResult = false := by
  constructor
  · simp [ASTExpr.unsetIsTemporary, ASTExpr.unaryChild, ASTExpr.isTemporary_unsetIsTemporary]
  · rfl

/-- C5: a Callable Invocation node is never error-prone — `isErrorProne()`
returns `false` for every callable child and argument list — and its
`errorType()` is exactly the callable child's resolved `expressionType()`. -/
theorem callableCall_error_contract (s : ExprState) (c : CallState) (callable : ASTExpr)
    (args : List ASTExpr) :
    (ASTExpr.callableCall s c callable args).isErrorProne = some false
      ∧ (ASTExpr.callableCall s c callable args).errorType = some callable.expressionType :=
  ⟨rfl, rfl⟩

/-- C6: when `setGenericArgumentTypes` is invoked with the types resolved for
exactly the generic-argument syntax nodes — the only way the callers outside
the fragment invoke it — the stored resolved-type list has the same length as
the generic-argument syntax list afterwards. -/
theorem setGenericArgumentTypes_matches_length (a : ASTArguments) (types : List Ty)
    (h : types.length = a.genericArguments.length) :
    (a.setGenericArgumentTypes types).genericArgumentTypes.length
      = (a.setGenericArgumentTypes types).genericArguments.length := by
  simpa [ASTArguments.setGenericArgumentTypes, ASTArguments.genericArgumentTypes] using h

/-- Witness for C6 at a concrete argument list with one generic argument. -/
theorem setGenericArgumentTypes_matches_length_witness :
    ([Ty.integer].length
        = ((mkASTArguments ⟨0, 0⟩).addGenericArgument ⟨0⟩).genericArguments.length)
      ∧ (((mkASTArguments ⟨0, 0⟩).addGenericArgument ⟨0⟩).setGenericArgumentTypes
            [Ty.integer]).genericArgumentTypes.length
        = (((mkASTArguments ⟨0, 0⟩).addGenericArgument ⟨0⟩).setGenericArgumentTypes
            [Ty.integer]).genericArguments.length :=
  ⟨rfl, setGenericArgumentTypes_matches_length _ _ rfl⟩

/-- C7: a sequence of `addArguments` calls appends exactly the given argument
expressions, in call order, to `args()` — nothing is dropped, duplicated or
reordered; from a freshly constructed argument list, `args()` is exactly the
sequence of appended arguments. -/
theorem addArguments_preserves_order (a : ASTArguments) (newArgs : List ASTExpr)
    (p : SourcePosition) :
    (newArgs.foldl ASTArguments.addArguments a).args = a.args ++ newArgs
      ∧ (newArgs.foldl ASTArguments.addArguments (mkASTArguments p)).args = newArgs := by
  refine ⟨ASTArguments.foldl_addArguments newArgs a, ?_⟩
  rw [ASTArguments.foldl_addArguments]
  simp [mkASTArguments, ASTArguments.args]

/-- C8: `insertNode` stores in the slot a new wrapping node whose source
position equals the original node's position and whose single child is the
original node; the returned node is the slot's new content, and the new node is
distinct from the original, so the original is reachable only as the new node's
child. -/
theorem insertNode_wraps (e : ASTExpr) :
    (insertNode e).1.position = e.position
      ∧ (insertNode e).1.unaryChild = some e
      ∧ (insertNode e).2 = (insertNode e).1
      ∧ (insertNode e).1 ≠ e := by
  refine ⟨rfl, rfl, rfl, ?_⟩
  exact ASTExpr.unaryMF_ne _ e

/-- C9: the memory-flow entry point of a Size-Of node has an empty body, so for
every flow category it returns the node completely unchanged; and after
analysis and the memory-flow pass, a Size-Of node's `producesTemporaryObject()`
is `false`, whatever flow category it received. -/
theorem sizeOf_never_registers_temporary (s : ExprState) (ty : ASTType) (p : SourcePosition)
    (cat : MFFlowCategory) :
    ((ASTExpr.sizeOf s ty).analyseMemoryFlow cat = ASTExpr.sizeOf s ty)
      ∧ ((ASTSizeOf.analyse (mkASTSizeOf ty p)).analyseMemoryFlow cat).producesTemporaryObject
        = false :=
  ⟨rfl, rfl⟩

/-- C10: `unsetIsTemporary` is idempotent on every node kind: calling it twice,
including the recursive forwarding performed by Unary-Forwarding wrappers,
leaves the node and all its children in the same state as calling it once. -/
theorem unsetIsTemporary_idempotent : ∀ (e : ASTExpr),
    e.unsetIsTemporary.unsetIsTemporary = e.unsetIsTemporary
  | .typeAsValue _ _ _ => rfl
  | .sizeOf _ _ => rfl
  | .callableCall _ _ _ _ => rfl
  | .superCall _ _ _ _ _ _ _ _ => rfl
  | .conditionalAssignment _ _ _ _ => rfl
  | .unaryMF s child => by
      simp [ASTExpr.unsetIsTemporary]
      exact unsetIsTemporary_idempotent child

end EmojicodeCompiler
